import Mathlib

/-!
Shallow embedding of the shop server actions:
`src/actions/order.ts` (createOrder, getOrder), the two cart action
variants in `src/unnamed/part_000` (a standalone-supabase-client file,
here `CartV1`, and a Clerk-supabase-client file, here `CartV2`), and the
Clerk webhook handler `src/app/api/webhooks/clerk/route.ts`.

The database is a record of row lists.  Database-generated values
(fresh row ids, timestamps) are passed in as parameters.  Each handler
is a pure function from the database and its request inputs to the
result value of the source together with the successor database.
-/

/-- Row of `products`, after `types/product.ts` (`Product`). -/
structure Product where
  id : String
  name : String
  description : Option String
  price : Int
  category : Option String
  stock_quantity : Int
  is_active : Bool
  created_at : String
  updated_at : String
deriving Repr, DecidableEq

/-- Row of `cart_items`, after `types/product.ts` (`CartItem`). -/
structure CartItem where
  id : String
  clerk_id : String
  product_id : String
  quantity : Int
  created_at : String
  updated_at : String
deriving Repr, DecidableEq

/-- Shipping address, the `ShippingAddress` type of `types/order.ts`. -/
structure ShippingAddress where
  name : String
  phone : String
  zipCode : String
  address : String
  detailAddress : Option String
deriving Repr, DecidableEq

/-- Row of `orders`, after `types/order.ts` (`Order`). -/
structure OrderRow where
  id : String
  clerk_id : String
  total_amount : Int
  status : String
  shipping_address : Option ShippingAddress
  order_note : Option String
  created_at : String
  updated_at : String
deriving Repr, DecidableEq

/-- Row of `order_items` restricted to the columns the handlers write and
read (`types/order.ts` `OrderItem` without the db-generated id and
timestamp). -/
structure OrderItemRow where
  order_id : String
  product_id : String
  product_name : String
  quantity : Int
  price : Int
deriving Repr, DecidableEq

/-- Row of `users` as used by the Clerk webhook (`clerk_id` keyed). -/
structure UserRow where
  id : String
  clerk_id : String
deriving Repr, DecidableEq

/-- The relational state the handlers touch. -/
structure Database where
  products : List Product
  cart_items : List CartItem
  orders : List OrderRow
  order_items : List OrderItemRow
  users : List UserRow
deriving Repr, DecidableEq

/-- Order form input, the `OrderFormData` type of `types/order.ts`. -/
structure OrderFormData where
  name : String
  phone : String
  zipCode : String
  address : String
  detailAddress : Option String
  orderNote : Option String
deriving Repr, DecidableEq

/-- Result of `createOrder` (`CreateOrderResult` of `types/order.ts`): success with an order id,
or failure with an error string. -/
inductive CreateOrderResult where
  | ok (orderId : String)
  | err (error : String)
deriving Repr, DecidableEq

/-- The embedded side of the checkout query
`cart_items.select('*, products(*)').eq('clerk_id', userId).eq('products.is_active', true)`
(src/actions/order.ts lines 30-34): the embedded product of a cart line
is present only when a product row with the line's `product_id` exists
and is active; otherwise PostgREST leaves it null. -/
def joinedActiveProduct (db : Database) (item : CartItem) : Option Product :=
  db.products.find? (fun p => p.id == item.product_id && p.is_active)

/-- The caller's cart lines as returned by the checkout query, each
paired with its (possibly absent) embedded active product. -/
def checkoutCart (db : Database) (userId : String) : List (CartItem × Option Product) :=
  (db.cart_items.filter (fun c => c.clerk_id == userId)).map
    (fun c => (c, joinedActiveProduct db c))

/-- Rejection message pushed at src/actions/order.ts line 55. -/
def stockShortMsg (p : Product) : String :=
  p.name ++ " (현재 재고: " ++ toString p.stock_quantity ++ ")"

/-- The stock-check loop of createOrder (src/actions/order.ts lines
46-61): skips lines with no embedded product, collects short-stocked
lines into the rejection list, and accumulates
`(totalAmount, validItems, insufficientStockItems)`. -/
def checkStock : List (CartItem × Option Product) → Int × List (CartItem × Product) × List String
  | [] => (0, [], [])
  | (_item, none) :: rest => checkStock rest
  | (item, some product) :: rest =>
    let r := checkStock rest
    if product.stock_quantity < item.quantity then
      (r.1, r.2.1, stockShortMsg product :: r.2.2)
    else
      (r.1 + product.price * item.quantity, (item, product) :: r.2.1, r.2.2)

/-- Shipping fee rule at src/actions/order.ts line 71:
free above the 50000 threshold, flat 3000 otherwise. -/
def shippingFee (totalAmount : Int) : Int :=
  if totalAmount ≥ 50000 then 0 else 3000

/-- Embeds `formData.orderNote || null` (src/actions/order.ts line 91): a
missing or empty note is stored as null. -/
def orderNoteOrNull (note : Option String) : Option String :=
  match note with
  | some s => if s == "" then none else some s
  | none => none

/-- Order-line row built from a valid cart line (src/actions/order.ts
lines 102-108): product name and price are copied at order time. -/
def orderItemOf (oid : String) (cp : CartItem × Product) : OrderItemRow :=
  { order_id := oid
    product_id := cp.1.product_id
    product_name := cp.2.name
    quantity := cp.1.quantity
    price := cp.2.price }

/-- Handler `createOrder` (src/actions/order.ts lines 20-143).  `newOrderId` and
`now` stand for the database-generated order id and timestamps. -/
def createOrder (db : Database) (userId? : Option String) (formData : OrderFormData)
    (newOrderId : String) (now : String) : CreateOrderResult × Database :=
  match userId? with
  | none => (.err "로그인이 필요합니다.", db)
  | some userId =>
    let cartItems := checkoutCart db userId
    if cartItems.isEmpty then
      (.err "장바구니가 비어있습니다.", db)
    else
      let checked := checkStock cartItems
      let totalAmount := checked.1
      let validItems := checked.2.1
      let insufficientStockItems := checked.2.2
      if insufficientStockItems.length > 0 then
        (.err ("다음 상품들의 재고가 부족합니다:\n" ++
               String.intercalate "\n" insufficientStockItems), db)
      else
        let fee := shippingFee totalAmount
        let finalTotal := totalAmount + fee
        let shippingAddress : ShippingAddress :=
          { name := formData.name
            phone := formData.phone
            zipCode := formData.zipCode
            address := formData.address
            detailAddress := formData.detailAddress }
        let order : OrderRow :=
          { id := newOrderId
            clerk_id := userId
            total_amount := finalTotal
            status := "pending"
            shipping_address := some shippingAddress
            order_note := orderNoteOrNull formData.orderNote
            created_at := now
            updated_at := now }
        let orderItems := validItems.map (orderItemOf newOrderId)
        let orderedProductIds := validItems.map (fun vi => vi.1.product_id)
        let db' : Database :=
          { db with
            orders := db.orders ++ [order]
            order_items := db.order_items ++ orderItems
            cart_items := db.cart_items.filter
              (fun c => !(c.clerk_id == userId && orderedProductIds.contains c.product_id)) }
        (.ok newOrderId, db')

/-- Result of `getOrder` (`GetOrderResult` of `types/order.ts`): the order with its joined
order lines, or an error string. -/
structure GetOrderResult where
  data : Option (OrderRow × List OrderItemRow) := none
  error : Option String := none
deriving Repr, DecidableEq

/-- Handler `getOrder` (src/actions/order.ts lines 149-178): the query filters
by both the order id and the caller's clerk id, so a missing order and
a foreign order fall into the same `.single()` error branch. -/
def getOrder (db : Database) (userId? : Option String) (orderId : String) : GetOrderResult :=
  match userId? with
  | none => { error := some "로그인이 필요합니다." }
  | some userId =>
    match db.orders.find? (fun o => o.id == orderId && o.clerk_id == userId) with
    | none => { error := some "주문을 찾을 수 없습니다." }
    | some order =>
      { data := some (order, db.order_items.filter (fun it => it.order_id == order.id)) }

namespace CartV1

/-- Result type `ActionResult` of the standalone-client cart file
(src/unnamed/part_000 lines 30-34); `data` carries the success
message. -/
structure ActionResult where
  success : Bool
  error : Option String := none
  data : Option String := none
deriving Repr, DecidableEq

/-- Handler `addToCart`, standalone-client variant (src/unnamed/part_000 lines
43-134).  `newItemId`/`now` stand for the database-generated id and
timestamps. -/
def addToCart (db : Database) (userId? : Option String) (productId : String)
    (quantity : Int) (newItemId : String) (now : String) : ActionResult × Database :=
  match userId? with
  | none => ({ success := false, error := some "로그인이 필요합니다." }, db)
  | some userId =>
    if quantity < 1 then
      ({ success := false, error := some "수량은 1개 이상이어야 합니다." }, db)
    else
      match db.products.find? (fun p => p.id == productId) with
      | none => ({ success := false, error := some "상품을 찾을 수 없습니다." }, db)
      | some product =>
        if !product.is_active then
          ({ success := false, error := some "현재 판매 중이 아닌 상품입니다." }, db)
        else
          let existingItem? := db.cart_items.find?
            (fun c => c.clerk_id == userId && c.product_id == productId)
          let newQuantity :=
            match existingItem? with
            | some e => e.quantity + quantity
            | none => quantity
          if newQuantity > product.stock_quantity then
            ({ success := false
               error := some ("재고가 부족합니다. (현재 재고: " ++
                              toString product.stock_quantity ++ "개)") }, db)
          else
            match existingItem? with
            | some e =>
              ({ success := true
                 data := some (product.name ++ "이(가) 장바구니에 추가되었습니다.") },
               { db with cart_items := db.cart_items.map (fun c =>
                   if c.id == e.id then { c with quantity := newQuantity, updated_at := now }
                   else c) })
            | none =>
              ({ success := true
                 data := some (product.name ++ "이(가) 장바구니에 추가되었습니다.") },
               { db with cart_items := db.cart_items ++
                   [{ id := newItemId, clerk_id := userId, product_id := productId,
                      quantity := quantity, created_at := now, updated_at := now }] })

/-- Handler `removeFromCart`, standalone-client variant (src/unnamed/part_000
lines 142-186): fetch the line by id, check ownership explicitly, then
delete by id. -/
def removeFromCart (db : Database) (userId? : Option String) (cartItemId : String) :
    ActionResult × Database :=
  match userId? with
  | none => ({ success := false, error := some "로그인이 필요합니다." }, db)
  | some userId =>
    match db.cart_items.find? (fun c => c.id == cartItemId) with
    | none => ({ success := false, error := some "장바구니 아이템을 찾을 수 없습니다." }, db)
    | some cartItem =>
      if cartItem.clerk_id != userId then
        ({ success := false, error := some "삭제 권한이 없습니다." }, db)
      else
        ({ success := true },
         { db with cart_items := db.cart_items.filter (fun c => !(c.id == cartItemId)) })

/-- Handler `updateCartQuantity`, standalone-client variant
(src/unnamed/part_000 lines 195-271): quantity ≤ 0 delegates to
`removeFromCart`; otherwise fetch with a plain product join, check
ownership and stock, and update by id. -/
def updateCartQuantity (db : Database) (userId? : Option String) (cartItemId : String)
    (quantity : Int) (now : String) : ActionResult × Database :=
  match userId? with
  | none => ({ success := false, error := some "로그인이 필요합니다." }, db)
  | some userId =>
    if quantity ≤ 0 then
      removeFromCart db (some userId) cartItemId
    else
      match db.cart_items.find? (fun c => c.id == cartItemId) with
      | none => ({ success := false, error := some "장바구니 아이템을 찾을 수 없습니다." }, db)
      | some cartItem =>
        if cartItem.clerk_id != userId then
          ({ success := false, error := some "수정 권한이 없습니다." }, db)
        else
          match db.products.find? (fun p => p.id == cartItem.product_id) with
          | none => ({ success := false, error := some "현재 판매 중이 아닌 상품입니다." }, db)
          | some product =>
            if !product.is_active then
              ({ success := false, error := some "현재 판매 중이 아닌 상품입니다." }, db)
            else if quantity > product.stock_quantity then
              ({ success := false
                 error := some ("재고가 부족합니다. (현재 재고: " ++
                                toString product.stock_quantity ++ "개)") }, db)
            else
              ({ success := true },
               { db with cart_items := db.cart_items.map (fun c =>
                   if c.id == cartItemId then { c with quantity := quantity, updated_at := now }
                   else c) })

/-- Handler `getCartItemCount`, standalone-client variant (src/unnamed/part_000
lines 349-370): returns the bare row count, 0 when unauthenticated. -/
def getCartItemCount (db : Database) (userId? : Option String) : Nat :=
  match userId? with
  | none => 0
  | some userId => (db.cart_items.filter (fun c => c.clerk_id == userId)).length

end CartV1

namespace CartV2

/-- Result type `CartActionResult` of the Clerk-client cart file
(src/unnamed/part_000 lines 379-383). -/
structure CartActionResult where
  success : Bool
  message : Option String := none
  error : Option String := none
deriving Repr, DecidableEq

/-- Handler `addToCart`, Clerk-client variant (src/unnamed/part_000 lines
390-468): checks only stock (no is_active check, no quantity ≥ 1
check). -/
def addToCart (db : Database) (userId? : Option String) (productId : String)
    (quantity : Int) (newItemId : String) (now : String) : CartActionResult × Database :=
  match userId? with
  | none => ({ success := false, error := some "로그인이 필요합니다." }, db)
  | some userId =>
    match db.products.find? (fun p => p.id == productId) with
    | none => ({ success := false, error := some "상품을 찾을 수 없습니다." }, db)
    | some product =>
      if product.stock_quantity < quantity then
        ({ success := false
           error := some ("재고가 부족합니다. (현재 재고: " ++
                          toString product.stock_quantity ++ ")") }, db)
      else
        match db.cart_items.find? (fun c => c.clerk_id == userId && c.product_id == productId) with
        | some existingCartItem =>
          let newQuantity := existingCartItem.quantity + quantity
          if product.stock_quantity < newQuantity then
            ({ success := false
               error := some ("재고가 부족하여 더 이상 추가할 수 없습니다. (현재 재고: " ++
                              toString product.stock_quantity ++ ")") }, db)
          else
            ({ success := true
               message := some ("장바구니에 " ++ product.name ++ " " ++ toString quantity ++
                                "개가 추가되었습니다. (총 " ++ toString newQuantity ++ "개)") },
             { db with cart_items := db.cart_items.map (fun c =>
                 if c.id == existingCartItem.id then
                   { c with quantity := newQuantity, updated_at := now }
                 else c) })
        | none =>
          ({ success := true
             message := some ("장바구니에 " ++ product.name ++ " " ++ toString quantity ++
                              "개가 추가되었습니다.") },
           { db with cart_items := db.cart_items ++
               [{ id := newItemId, clerk_id := userId, product_id := productId,
                  quantity := quantity, created_at := now, updated_at := now }] })

/-- Handler `removeFromCart`, Clerk-client variant (src/unnamed/part_000 lines
474-499): a silent delete whose predicate is scoped by both the line id
and the caller's clerk id. -/
def removeFromCart (db : Database) (userId? : Option String) (cartItemId : String) :
    CartActionResult × Database :=
  match userId? with
  | none => ({ success := false, error := some "로그인이 필요합니다." }, db)
  | some userId =>
    ({ success := true, message := some "상품이 장바구니에서 삭제되었습니다." },
     { db with cart_items := db.cart_items.filter
                  (fun c => !(c.id == cartItemId && c.clerk_id == userId)) })

/-- Handler `updateCartQuantity`, Clerk-client variant (src/unnamed/part_000
lines 506-567): quantity ≤ 0 delegates to `removeFromCart`; the fetch
and the update are both scoped by the caller's clerk id. -/
def updateCartQuantity (db : Database) (userId? : Option String) (cartItemId : String)
    (newQuantity : Int) (now : String) : CartActionResult × Database :=
  match userId? with
  | none => ({ success := false, error := some "로그인이 필요합니다." }, db)
  | some userId =>
    if newQuantity ≤ 0 then
      removeFromCart db (some userId) cartItemId
    else
      match db.cart_items.find? (fun c => c.id == cartItemId && c.clerk_id == userId) with
      | none => ({ success := false, error := some "장바구니 항목을 찾을 수 없습니다." }, db)
      | some cartItem =>
        match db.products.find? (fun p => p.id == cartItem.product_id) with
        | none => ({ success := false, error := some "상품을 찾을 수 없습니다." }, db)
        | some product =>
          if product.stock_quantity < newQuantity then
            ({ success := false
               error := some ("재고가 부족합니다. (현재 재고: " ++
                              toString product.stock_quantity ++ ")") }, db)
          else
            ({ success := true
               message := some ("장바구니 상품 수량이 " ++ toString newQuantity ++
                                "개로 변경되었습니다.") },
             { db with cart_items := db.cart_items.map (fun c =>
                 if c.id == cartItemId && c.clerk_id == userId then
                   { c with quantity := newQuantity, updated_at := now }
                 else c) })

/-- Return shape of the Clerk-client `getCartItemCount`
(src/unnamed/part_000 lines 608-632). -/
structure CartCountResult where
  count : Nat
  error : Option String := none
deriving Repr, DecidableEq

/-- Handler `getCartItemCount`, Clerk-client variant (src/unnamed/part_000
lines 608-632): unauthenticated calls get count 0 together with an
error message. -/
def getCartItemCount (db : Database) (userId? : Option String) : CartCountResult :=
  match userId? with
  | none => { count := 0, error := some "로그인이 필요합니다." }
  | some userId => { count := (db.cart_items.filter (fun c => c.clerk_id == userId)).length }

end CartV2

/-- Verified Clerk webhook events the route switches on
(src/app/api/webhooks/clerk/route.ts lines 56-89). -/
inductive ClerkEvent where
  | userDeleted (id : String)
  | userCreated (id : String)
  | userUpdated (id : String)
  | other (eventType : String)
deriving Repr, DecidableEq

/-- The inputs of the webhook route that are decided outside this
repository: whether the secret is configured, whether the Svix headers
are present, and the outcome of the delegated signature verification
(`none` when `wh.verify` throws). -/
structure WebhookRequest where
  secretConfigured : Bool
  hasSvixHeaders : Bool
  verifies : Option ClerkEvent
deriving Repr, DecidableEq

/-- HTTP response produced by the route. -/
structure HttpResponse where
  body : String
  status : Int
deriving Repr, DecidableEq

/-- Handler `POST` of src/app/api/webhooks/clerk/route.ts: on a verified
`user.deleted` event, deletes the `users` rows with the event's clerk
id; other verified events only log. -/
def clerkWebhookPOST (db : Database) (req : WebhookRequest) : HttpResponse × Database :=
  if !req.secretConfigured then
    ({ body := "Webhook secret not configured", status := 500 }, db)
  else if !req.hasSvixHeaders then
    ({ body := "Missing Svix headers", status := 400 }, db)
  else
    match req.verifies with
    | none => ({ body := "Webhook verification failed", status := 400 }, db)
    | some evt =>
      match evt with
      | .userDeleted clerkUserId =>
        ({ body := "Webhook processed successfully", status := 200 },
         { db with users := db.users.filter (fun u => !(u.clerk_id == clerkUserId)) })
      | _ => ({ body := "Webhook processed successfully", status := 200 }, db)

/-! Specification-side derived definitions. -/

/-- The joined lines that survived the product join, paired with their
product (the "valid lines" of the specification, before the stock
check). -/
def joinPairs (items : List (CartItem × Option Product)) : List (CartItem × Product) :=
  items.filterMap (fun ip => ip.2.map (fun p => (ip.1, p)))

/-- The caller's checkout lines whose active product is present. -/
def validLines (db : Database) (userId : String) : List (CartItem × Product) :=
  joinPairs (checkoutCart db userId)

/-- Merchandise subtotal: sum of price × quantity over joined lines. -/
def linesSubtotal (lines : List (CartItem × Product)) : Int :=
  (lines.map (fun cp => cp.2.price * cp.1.quantity)).sum

/-- Rejection messages of the short-stocked joined lines, in cart
order. -/
def offendingMsgs (items : List (CartItem × Option Product)) : List String :=
  items.filterMap (fun ip =>
    match ip.2 with
    | some p => if p.stock_quantity < ip.1.quantity then some (stockShortMsg p) else none
    | none => none)

/-- The not-found-equivalent result of `getOrder`. -/
def orderNotFoundResult : GetOrderResult := { error := some "주문을 찾을 수 없습니다." }

/-- The cart lines of the database that belong to users other than
`uid`. -/
def foreignLines (db : Database) (uid : String) : List CartItem :=
  db.cart_items.filter (fun c => !(c.clerk_id == uid))

/-! Concrete rows used to evaluate the handlers on closed inputs. -/

/-- Active product, price 20000, stock 5. -/
def exProductA : Product :=
  { id := "p1", name := "상품A", description := none, price := 20000, category := none,
    stock_quantity := 5, is_active := true, created_at := "t0", updated_at := "t0" }

/-- Active product with zero stock. -/
def exProductZ : Product :=
  { id := "p2", name := "상품B", description := none, price := 15000, category := none,
    stock_quantity := 0, is_active := true, created_at := "t0", updated_at := "t0" }

/-- Inactive product with positive stock. -/
def exProductI : Product :=
  { id := "p3", name := "상품C", description := none, price := 1000, category := none,
    stock_quantity := 5, is_active := false, created_at := "t0", updated_at := "t0" }

/-- user1's line for product p1, quantity 2. -/
def exCartA : CartItem :=
  { id := "c1", clerk_id := "user1", product_id := "p1", quantity := 2,
    created_at := "t0", updated_at := "t0" }

/-- user1's line for the zero-stock product p2. -/
def exCartZ : CartItem :=
  { id := "c2", clerk_id := "user1", product_id := "p2", quantity := 1,
    created_at := "t0", updated_at := "t0" }

/-- A foreign user's (user2) line for product p1. -/
def exCartForeign : CartItem :=
  { id := "c3", clerk_id := "user2", product_id := "p1", quantity := 1,
    created_at := "t0", updated_at := "t0" }

/-- user1's line for the inactive product p3 (dropped by the checkout
join). -/
def exCartI : CartItem :=
  { id := "c4", clerk_id := "user1", product_id := "p3", quantity := 1,
    created_at := "t0", updated_at := "t0" }

/-- An order owned by user2. -/
def exOrder : OrderRow :=
  { id := "o1", clerk_id := "user2", total_amount := 43000, status := "pending",
    shipping_address := none, order_note := none, created_at := "t0", updated_at := "t0" }

/-- Base example database. -/
def exDb : Database :=
  { products := [exProductA, exProductZ, exProductI]
    cart_items := [exCartA, exCartForeign]
    orders := [exOrder]
    order_items := []
    users := [{ id := "row1", clerk_id := "user1" }, { id := "row2", clerk_id := "user2" }] }

/-- Example database whose cart holds a short-stocked line. -/
def exDbShort : Database :=
  { exDb with cart_items := [exCartA, exCartZ, exCartForeign] }

/-- Example database whose cart holds a line for an inactive product. -/
def exDbSkip : Database :=
  { exDb with cart_items := [exCartA, exCartI, exCartForeign] }

/-- Example order form. -/
def exForm : OrderFormData :=
  { name := "홍길동", phone := "01000000000", zipCode := "12345", address := "서울",
    detailAddress := none, orderNote := none }

/-- Verified `user.deleted` webhook request for user1. -/
def exReq : WebhookRequest :=
  { secretConfigured := true, hasSvixHeaders := true,
    verifies := some (ClerkEvent.userDeleted "user1") }

/-! Helper lemmas about the checkout pipeline. -/

theorem checkoutCart_mem (db : Database) (uid : String) (c : CartItem)
    (hc : c ∈ db.cart_items) (hcu : c.clerk_id = uid) :
    (c, joinedActiveProduct db c) ∈ checkoutCart db uid := by
  unfold checkoutCart
  exact List.mem_map_of_mem _ (List.mem_filter.mpr ⟨hc, by simp [hcu]⟩)

theorem checkoutCart_spec (db : Database) (uid : String) (ip : CartItem × Option Product)
    (h : ip ∈ checkoutCart db uid) :
    ip.1 ∈ db.cart_items ∧ ip.1.clerk_id = uid ∧ ip.2 = joinedActiveProduct db ip.1 := by
  unfold checkoutCart at h
  obtain ⟨c, hc, rfl⟩ := List.mem_map.mp h
  have hm := List.mem_filter.mp hc
  exact ⟨hm.1, by simpa using hm.2, rfl⟩

theorem joinedActiveProduct_congr (db : Database) (c d : CartItem)
    (h : c.product_id = d.product_id) :
    joinedActiveProduct db c = joinedActiveProduct db d := by
  unfold joinedActiveProduct
  rw [h]

theorem joinPairs_cons_none (item : CartItem) (rest : List (CartItem × Option Product)) :
    joinPairs ((item, none) :: rest) = joinPairs rest := by
  simp [joinPairs, List.filterMap_cons]

theorem joinPairs_cons_some (item : CartItem) (p : Product)
    (rest : List (CartItem × Option Product)) :
    joinPairs ((item, some p) :: rest) = (item, p) :: joinPairs rest := by
  simp [joinPairs, List.filterMap_cons]

theorem offendingMsgs_cons_none (item : CartItem) (rest : List (CartItem × Option Product)) :
    offendingMsgs ((item, none) :: rest) = offendingMsgs rest := by
  simp [offendingMsgs, List.filterMap_cons]

theorem offendingMsgs_cons_some (item : CartItem) (p : Product)
    (rest : List (CartItem × Option Product)) :
    offendingMsgs ((item, some p) :: rest) =
      if p.stock_quantity < item.quantity then stockShortMsg p :: offendingMsgs rest
      else offendingMsgs rest := by
  by_cases h : p.stock_quantity < item.quantity <;>
    simp [offendingMsgs, List.filterMap_cons, h]

theorem linesSubtotal_cons (cp : CartItem × Product) (rest : List (CartItem × Product)) :
    linesSubtotal (cp :: rest) = cp.2.price * cp.1.quantity + linesSubtotal rest := by
  simp [linesSubtotal]

/-- The rejection list of the stock-check loop is exactly the list of
messages of the short-stocked joined lines. -/
theorem checkStock_rejections : ∀ (items : List (CartItem × Option Product)),
    (checkStock items).2.2 = offendingMsgs items
  | [] => rfl
  | (item, none) :: rest => by
    simpa [checkStock, offendingMsgs_cons_none] using checkStock_rejections rest
  | (item, some p) :: rest => by
    by_cases h : p.stock_quantity < item.quantity <;>
      simp [checkStock, offendingMsgs_cons_some, h, checkStock_rejections rest]

theorem offendingMsgs_mem (items : List (CartItem × Option Product))
    (ip : CartItem × Option Product) (hip : ip ∈ items) (p : Product) (hp : ip.2 = some p)
    (h : p.stock_quantity < ip.1.quantity) :
    stockShortMsg p ∈ offendingMsgs items := by
  unfold offendingMsgs
  exact List.mem_filterMap.mpr ⟨ip, hip, by simp [hp, h]⟩

/-- When every joined line has enough stock, the stock-check loop
returns the subtotal of the valid lines, the valid lines themselves and
an empty rejection list. -/
theorem checkStock_all_ok : ∀ (items : List (CartItem × Option Product)),
    (∀ ip ∈ items, ∀ p ∈ ip.2, ip.1.quantity ≤ p.stock_quantity) →
    checkStock items = (linesSubtotal (joinPairs items), joinPairs items, [])
  | [], _ => rfl
  | (item, none) :: rest, h => by
    simpa [checkStock, joinPairs_cons_none] using
      checkStock_all_ok rest (fun x hx => h x (List.mem_cons_of_mem _ hx))
  | (item, some p) :: rest, h => by
    have hq : item.quantity ≤ p.stock_quantity :=
      h (item, some p) (List.mem_cons_self _ _) p rfl
    have hrest := checkStock_all_ok rest (fun x hx => h x (List.mem_cons_of_mem _ hx))
    simp [checkStock, joinPairs_cons_some, linesSubtotal_cons, hrest, not_lt.mpr hq]
    ring

theorem joinPairs_length (items : List (CartItem × Option Product))
    (h : ∀ ip ∈ items, ip.2 ≠ none) :
    (joinPairs items).length = items.length := by
  induction items with
  | nil => rfl
  | cons ip rest ih =>
    have hr := ih (fun x hx => h x (List.mem_cons_of_mem _ hx))
    obtain ⟨item, p?⟩ := ip
    cases p? with
    | none => exact absurd rfl (h (item, none) (List.mem_cons_self _ _))
    | some p => simp [joinPairs_cons_some, hr]

/-- Characterization of the success path of `createOrder`: with a
non-empty joined cart in which no joined line is short-stocked, the
handler appends exactly one pending order, appends one order line per
valid cart line, and deletes exactly the caller's cart lines whose
product id was ordered. -/
theorem createOrder_ok_char (db : Database) (uid : String) (fd : OrderFormData)
    (oid now : String)
    (hne : checkoutCart db uid ≠ [])
    (hstock : ∀ ip ∈ checkoutCart db uid, ∀ p ∈ ip.2, ip.1.quantity ≤ p.stock_quantity) :
    createOrder db (some uid) fd oid now =
      (CreateOrderResult.ok oid,
       { products := db.products
         cart_items := db.cart_items.filter (fun c =>
           !(c.clerk_id == uid &&
             ((validLines db uid).map (fun vi => vi.1.product_id)).contains c.product_id))
         orders := db.orders ++
           [{ id := oid
              clerk_id := uid
              total_amount := linesSubtotal (validLines db uid) +
                shippingFee (linesSubtotal (validLines db uid))
              status := "pending"
              shipping_address := some { name := fd.name, phone := fd.phone,
                                         zipCode := fd.zipCode, address := fd.address,
                                         detailAddress := fd.detailAddress }
              order_note := orderNoteOrNull fd.orderNote
              created_at := now
              updated_at := now }]
         order_items := db.order_items ++ (validLines db uid).map (orderItemOf oid)
         users := db.users }) := by
  have hck := checkStock_all_ok (checkoutCart db uid) hstock
  unfold createOrder
  simp only [hck, validLines, List.isEmpty_iff, hne, if_false, List.length_nil,
    gt_iff_lt, lt_self_iff_false]

/-- C1: For every authenticated caller whose non-empty cart lines
(joined with their products) all have quantity within the product's
current stock, `createOrder` creates exactly one order row with status
"pending" and total equal to the subtotal of the valid lines plus the
shipping fee, creates exactly one order-line row per valid cart line
copying the product's name and price, deletes exactly the caller's cart
lines whose product ids were ordered, leaves unrelated tables
untouched, and returns success with the new order id. -/
theorem createOrder_success_spec (db : Database) (uid : String) (fd : OrderFormData)
    (oid now : String)
    (hne : checkoutCart db uid ≠ [])
    (hjoin : ∀ ip ∈ checkoutCart db uid, ip.2 ≠ none)
    (hstock : ∀ ip ∈ checkoutCart db uid, ∀ p ∈ ip.2, ip.1.quantity ≤ p.stock_quantity) :
    (createOrder db (some uid) fd oid now).1 = CreateOrderResult.ok oid ∧
    (createOrder db (some uid) fd oid now).2.orders = db.orders ++
      [{ id := oid
         clerk_id := uid
         total_amount := linesSubtotal (validLines db uid) +
           shippingFee (linesSubtotal (validLines db uid))
         status := "pending"
         shipping_address := some { name := fd.name, phone := fd.phone, zipCode := fd.zipCode,
                                    address := fd.address, detailAddress := fd.detailAddress }
         order_note := orderNoteOrNull fd.orderNote
         created_at := now
         updated_at := now }] ∧
    (createOrder db (some uid) fd oid now).2.order_items =
      db.order_items ++ (validLines db uid).map (orderItemOf oid) ∧
    (validLines db uid).length = (checkoutCart db uid).length ∧
    (createOrder db (some uid) fd oid now).2.cart_items = db.cart_items.filter (fun c =>
      !(c.clerk_id == uid &&
        ((validLines db uid).map (fun vi => vi.1.product_id)).contains c.product_id)) ∧
    (createOrder db (some uid) fd oid now).2.products = db.products ∧
    (createOrder db (some uid) fd oid now).2.users = db.users := by
  rw [createOrder_ok_char db uid fd oid now hne hstock]
  exact ⟨rfl, rfl, rfl, joinPairs_length _ hjoin, rfl, rfl, rfl⟩

theorem createOrder_success_spec_witness :
    checkoutCart exDb "user1" ≠ [] ∧
    (createOrder exDb (some "user1") exForm "o2" "t1").1 = CreateOrderResult.ok "o2" ∧
    (createOrder exDb (some "user1") exForm "o2" "t1").2.cart_items =
      exDb.cart_items.filter (fun c =>
        !(c.clerk_id == "user1" &&
          ((validLines exDb "user1").map (fun vi => vi.1.product_id)).contains c.product_id)) :=
  have h := createOrder_success_spec exDb "user1" exForm "o2" "t1"
    (by decide) (by decide) (by decide)
  ⟨by decide, h.1, h.2.2.2.2.1⟩

/-- C2: For every authenticated caller with a non-empty cart, if any
joined cart line's quantity exceeds the product's current stock,
`createOrder` fails with the aggregated insufficient-stock error that
names every offending product with its current stock, and the database
(orders, order lines, cart lines) is left entirely unchanged. -/
theorem createOrder_insufficient_spec (db : Database) (uid : String) (fd : OrderFormData)
    (oid now : String)
    (hbad : ∃ ip ∈ checkoutCart db uid, ∃ p, ip.2 = some p ∧ p.stock_quantity < ip.1.quantity) :
    (createOrder db (some uid) fd oid now).2 = db ∧
    (createOrder db (some uid) fd oid now).1 =
      CreateOrderResult.err ("다음 상품들의 재고가 부족합니다:\n" ++
        String.intercalate "\n" (offendingMsgs (checkoutCart db uid))) ∧
    (∀ ip ∈ checkoutCart db uid, ∀ p, ip.2 = some p → p.stock_quantity < ip.1.quantity →
      stockShortMsg p ∈ offendingMsgs (checkoutCart db uid)) := by
  obtain ⟨ip0, hip0, p0, hp0, hs0⟩ := hbad
  have hne : checkoutCart db uid ≠ [] := List.ne_nil_of_mem hip0
  have hmem : stockShortMsg p0 ∈ offendingMsgs (checkoutCart db uid) :=
    offendingMsgs_mem _ ip0 hip0 p0 hp0 hs0
  have hlen : 0 < (offendingMsgs (checkoutCart db uid)).length :=
    List.length_pos.mpr (List.ne_nil_of_mem hmem)
  refine ⟨?_, ?_, fun ip hip p hp hs => offendingMsgs_mem _ ip hip p hp hs⟩ <;>
  · unfold createOrder
    simp only [checkStock_rejections, List.isEmpty_iff, hne, if_false, gt_iff_lt, hlen, if_true]

theorem createOrder_insufficient_spec_witness :
    (∃ ip ∈ checkoutCart exDbShort "user1",
      ∃ p, ip.2 = some p ∧ p.stock_quantity < ip.1.quantity) ∧
    (createOrder exDbShort (some "user1") exForm "o2" "t1").2 = exDbShort ∧
    (createOrder exDbShort (some "user1") exForm "o2" "t1").1 =
      CreateOrderResult.err ("다음 상품들의 재고가 부족합니다:\n" ++
        String.intercalate "\n" (offendingMsgs (checkoutCart exDbShort "user1"))) :=
  have hbad : ∃ ip ∈ checkoutCart exDbShort "user1",
      ∃ p, ip.2 = some p ∧ p.stock_quantity < ip.1.quantity :=
    ⟨(exCartZ, some exProductZ), by decide, exProductZ, rfl, by decide⟩
  have h := createOrder_insufficient_spec exDbShort "user1" exForm "o2" "t1" hbad
  ⟨hbad, h.1, h.2.1⟩

/-- C3: The shipping fee is exactly 0 when the merchandise subtotal is
at least 50000 and exactly 3000 otherwise (including subtotal 0), and
on the success path the persisted order total is the subtotal of the
valid lines plus the shipping fee on that subtotal. -/
theorem shippingFee_spec :
    (∀ s : Int, 50000 ≤ s → shippingFee s = 0) ∧
    (∀ s : Int, s < 50000 → shippingFee s = 3000) ∧
    (∀ (db : Database) (uid : String) (fd : OrderFormData) (oid now : String),
      checkoutCart db uid ≠ [] →
      (∀ ip ∈ checkoutCart db uid, ∀ p ∈ ip.2, ip.1.quantity ≤ p.stock_quantity) →
      ∃ o, (createOrder db (some uid) fd oid now).2.orders = db.orders ++ [o] ∧
        o.total_amount = linesSubtotal (validLines db uid) +
          shippingFee (linesSubtotal (validLines db uid))) := by
  refine ⟨fun s hs => by simp [shippingFee, hs],
          fun s hs => by simp [shippingFee, not_le.mpr hs], ?_⟩
  intro db uid fd oid now hne hstock
  rw [createOrder_ok_char db uid fd oid now hne hstock]
  exact ⟨_, rfl, rfl⟩

theorem shippingFee_spec_witness :
    shippingFee 50000 = 0 ∧ shippingFee 0 = 3000 ∧
    ∃ o, (createOrder exDb (some "user1") exForm "o3" "t1").2.orders = exDb.orders ++ [o] ∧
      o.total_amount = linesSubtotal (validLines exDb "user1") +
        shippingFee (linesSubtotal (validLines exDb "user1")) :=
  ⟨shippingFee_spec.1 50000 (by decide),
   shippingFee_spec.2.1 0 (by decide),
   shippingFee_spec.2.2 exDb "user1" exForm "o3" "t1" (by decide) (by decide)⟩

/-- C9: A cart line whose joined product is absent after the
active-product join is silently skipped by `createOrder`: no failure is
triggered, the line yields no order-line row and contributes nothing to
the persisted total, and its cart row survives the post-order cart
deletion while the order proceeds for the remaining lines. -/
theorem createOrder_skips_unjoined_spec (db : Database) (uid : String) (fd : OrderFormData)
    (oid now : String) (L : CartItem)
    (hL : L ∈ db.cart_items) (hLuid : L.clerk_id = uid)
    (hLnone : joinedActiveProduct db L = none)
    (hstock : ∀ ip ∈ checkoutCart db uid, ∀ p ∈ ip.2, ip.1.quantity ≤ p.stock_quantity) :
    (createOrder db (some uid) fd oid now).1 = CreateOrderResult.ok oid ∧
    (∀ vi ∈ validLines db uid, vi.1.product_id ≠ L.product_id) ∧
    (createOrder db (some uid) fd oid now).2.order_items =
      db.order_items ++ (validLines db uid).map (orderItemOf oid) ∧
    (∀ it ∈ (validLines db uid).map (orderItemOf oid), it.product_id ≠ L.product_id) ∧
    L ∈ (createOrder db (some uid) fd oid now).2.cart_items ∧
    (∃ o, (createOrder db (some uid) fd oid now).2.orders = db.orders ++ [o] ∧
      o.total_amount = linesSubtotal (validLines db uid) +
        shippingFee (linesSubtotal (validLines db uid))) := by
  have hne : checkoutCart db uid ≠ [] :=
    List.ne_nil_of_mem (checkoutCart_mem db uid L hL hLuid)
  have hpid : ∀ vi ∈ validLines db uid, vi.1.product_id ≠ L.product_id := by
    intro vi hvi heq
    unfold validLines joinPairs at hvi
    obtain ⟨ip, hip, hmap⟩ := List.mem_filterMap.mp hvi
    cases hp : ip.2 with
    | none => rw [hp] at hmap; exact Option.noConfusion hmap
    | some p =>
      rw [hp] at hmap
      simp only [Option.map_some'] at hmap
      injection hmap with hvi_eq
      have hfst : vi.1 = ip.1 := by rw [← hvi_eq]
      have hsnd := (checkoutCart_spec db uid ip hip).2.2
      have hnone : joinedActiveProduct db ip.1 = none := by
        rw [joinedActiveProduct_congr db ip.1 L (by rw [← hfst, heq]), hLnone]
      rw [← hsnd, hp] at hnone
      exact Option.noConfusion hnone
  have hcont : ((validLines db uid).map (fun vi => vi.1.product_id)).contains L.product_id
      = false := by
    rw [Bool.eq_false_iff]
    intro hc
    have hmem : L.product_id ∈ (validLines db uid).map (fun vi => vi.1.product_id) := by
      simpa using hc
    obtain ⟨vi, hvi, hpe⟩ := List.mem_map.mp hmem
    exact hpid vi hvi hpe
  have hD : ∀ it ∈ (validLines db uid).map (orderItemOf oid),
      it.product_id ≠ L.product_id := by
    intro it hit
    obtain ⟨vi, hvi, rfl⟩ := List.mem_map.mp hit
    exact hpid vi hvi
  rw [createOrder_ok_char db uid fd oid now hne hstock]
  refine ⟨rfl, hpid, rfl, ?_, ?_, ⟨_, rfl, rfl⟩⟩
  · exact hD
  · refine List.mem_filter.mpr ⟨hL, ?_⟩
    show (!(L.clerk_id == uid &&
      ((validLines db uid).map (fun vi => vi.1.product_id)).contains L.product_id)) = true
    rw [hcont, hLuid]
    simp

theorem createOrder_skips_unjoined_spec_witness :
    exCartI ∈ exDbSkip.cart_items ∧ joinedActiveProduct exDbSkip exCartI = none ∧
    (createOrder exDbSkip (some "user1") exForm "o4" "t1").1 = CreateOrderResult.ok "o4" ∧
    exCartI ∈ (createOrder exDbSkip (some "user1") exForm "o4" "t1").2.cart_items :=
  have h := createOrder_skips_unjoined_spec exDbSkip "user1" exForm "o4" "t1" exCartI
    (by decide) (by decide) (by decide) (by decide)
  ⟨by decide, by decide, h.1, h.2.2.2.2.1⟩

theorem getOrder_some_eq (db : Database) (uid orderId : String) :
    getOrder db (some uid) orderId =
      match db.orders.find? (fun o => o.id == orderId && o.clerk_id == uid) with
      | none => { error := some "주문을 찾을 수 없습니다." }
      | some order =>
        { data := some (order, db.order_items.filter (fun it => it.order_id == order.id)) } :=
  rfl

/-- C5: `getOrder` returns order data only when the order belongs to
the caller, and a missing order and a foreign order produce the
identical not-found-equivalent result carrying no order data. -/
theorem getOrder_owner_only (db : Database) (uid oid : String) :
    (∀ d, (getOrder db (some uid) oid).data = some d →
      d.1.clerk_id = uid ∧ d.1.id = oid ∧ d.1 ∈ db.orders) ∧
    ((∀ o ∈ db.orders, o.id ≠ oid) → getOrder db (some uid) oid = orderNotFoundResult) ∧
    ((∀ o ∈ db.orders, o.id = oid → o.clerk_id ≠ uid) →
      getOrder db (some uid) oid = orderNotFoundResult) := by
  refine ⟨?_, ?_, ?_⟩
  · intro d hd
    rw [getOrder_some_eq] at hd
    cases hfind : db.orders.find? (fun o => o.id == oid && o.clerk_id == uid) with
    | none => rw [hfind] at hd; exact Option.noConfusion hd
    | some o =>
      rw [hfind] at hd
      simp only [Option.some.injEq] at hd
      have hpred := List.find?_some hfind
      simp only [Bool.and_eq_true, beq_iff_eq] at hpred
      have hmem := List.mem_of_find?_eq_some hfind
      rw [← hd]
      exact ⟨hpred.2, hpred.1, hmem⟩
  · intro h
    rw [getOrder_some_eq]
    have hfind : db.orders.find? (fun o => o.id == oid && o.clerk_id == uid) = none := by
      rw [List.find?_eq_none]
      intro o ho
      simp only [Bool.and_eq_true, beq_iff_eq, not_and]
      intro hid
      exact absurd hid (h o ho)
    rw [hfind]
    rfl
  · intro h
    rw [getOrder_some_eq]
    have hfind : db.orders.find? (fun o => o.id == oid && o.clerk_id == uid) = none := by
      rw [List.find?_eq_none]
      intro o ho
      simp only [Bool.and_eq_true, beq_iff_eq, not_and]
      exact h o ho
    rw [hfind]
    rfl

theorem getOrder_owner_only_witness :
    (∀ o ∈ exDb.orders, o.id = "o1" → o.clerk_id ≠ "user1") ∧
    getOrder exDb (some "user1") "o1" = orderNotFoundResult ∧
    getOrder exDb (some "user1") "missing" = orderNotFoundResult :=
  ⟨by decide,
   (getOrder_owner_only exDb "user1" "o1").2.2 (by decide),
   (getOrder_owner_only exDb "user1" "missing").2.1 (by decide)⟩

/-- C6: For an authenticated caller, `updateCartQuantity` with a new
quantity ≤ 0 is, in both handler variants, literally the same call as
`removeFromCart` on that line id: same result and same state change. -/
theorem updateCartQuantity_nonpos_is_remove (db : Database) (uid cid : String) (q : Int)
    (now : String) (hq : q ≤ 0) :
    CartV1.updateCartQuantity db (some uid) cid q now = CartV1.removeFromCart db (some uid) cid ∧
    CartV2.updateCartQuantity db (some uid) cid q now = CartV2.removeFromCart db (some uid) cid := by
  constructor
  · unfold CartV1.updateCartQuantity
    simp [hq]
  · unfold CartV2.updateCartQuantity
    simp [hq]

theorem updateCartQuantity_nonpos_is_remove_witness :
    (0 : Int) ≤ 0 ∧
    CartV1.updateCartQuantity exDb (some "user1") "c1" 0 "t1" =
      CartV1.removeFromCart exDb (some "user1") "c1" ∧
    CartV2.updateCartQuantity exDb (some "user1") "c1" 0 "t1" =
      CartV2.removeFromCart exDb (some "user1") "c1" :=
  have h := updateCartQuantity_nonpos_is_remove exDb "user1" "c1" 0 "t1" (by decide)
  ⟨by decide, h.1, h.2⟩

/-- C7: For every verified webhook request of type `user.deleted`, the
handler deletes exactly the `users` rows whose clerk id matches the
event, touches no other table, and responds with success (HTTP 200). -/
theorem webhook_user_deleted_spec (db : Database) (req : WebhookRequest) (cid : String)
    (hs : req.secretConfigured = true) (hh : req.hasSvixHeaders = true)
    (hv : req.verifies = some (ClerkEvent.userDeleted cid)) :
    (clerkWebhookPOST db req).1 = { body := "Webhook processed successfully", status := 200 } ∧
    (∀ u ∈ db.users, u.clerk_id = cid → u ∉ (clerkWebhookPOST db req).2.users) ∧
    (∀ u ∈ db.users, u.clerk_id ≠ cid → u ∈ (clerkWebhookPOST db req).2.users) ∧
    (∀ u ∈ (clerkWebhookPOST db req).2.users, u ∈ db.users) ∧
    (clerkWebhookPOST db req).2.cart_items = db.cart_items ∧
    (clerkWebhookPOST db req).2.orders = db.orders ∧
    (clerkWebhookPOST db req).2.order_items = db.order_items ∧
    (clerkWebhookPOST db req).2.products = db.products := by
  have hrun : clerkWebhookPOST db req =
      ({ body := "Webhook processed successfully", status := 200 },
       { db with users := db.users.filter (fun u => !(u.clerk_id == cid)) }) := by
    unfold clerkWebhookPOST
    simp [hs, hh, hv]
  rw [hrun]
  refine ⟨rfl, ?_, ?_, ?_, rfl, rfl, rfl, rfl⟩
  · intro u hu hcid hmem
    have := (List.mem_filter.mp hmem).2
    simp [hcid] at this
  · intro u hu hcid
    refine List.mem_filter.mpr ⟨hu, ?_⟩
    simp [hcid]
  · intro u hu
    exact (List.mem_filter.mp hu).1

theorem webhook_user_deleted_spec_witness :
    exReq.verifies = some (ClerkEvent.userDeleted "user1") ∧
    (clerkWebhookPOST exDb exReq).1 =
      { body := "Webhook processed successfully", status := 200 } ∧
    (∀ u ∈ (clerkWebhookPOST exDb exReq).2.users, u ∈ exDb.users) :=
  have h := webhook_user_deleted_spec exDb exReq "user1" rfl rfl rfl
  ⟨rfl, h.1, h.2.2.2.1⟩

/-- C8 counterexample: in the Clerk-client variant, the unauthenticated
cart count is not a bare scalar 0 but a record that carries an error
message, so "returns 0 and not an error result" fails on this
variant. -/
theorem getCartItemCount_unauth_counterexample :
    (CartV2.getCartItemCount exDb none).error = some "로그인이 필요합니다." ∧
    (CartV2.getCartItemCount exDb none).error ≠ none := by
  constructor
  · rfl
  · decide

/-- C8 (amended): unauthenticated, the standalone-client
`getCartItemCount` returns the bare scalar 0 with no error, while the
Clerk-client variant returns count 0 accompanied by an error message. -/
theorem getCartItemCount_unauth_spec (db : Database) :
    CartV1.getCartItemCount db none = 0 ∧
    CartV2.getCartItemCount db none = { count := 0, error := some "로그인이 필요합니다." } :=
  ⟨rfl, rfl⟩

/-- C4 counterexample: the Clerk-client `addToCart` never consults
`is_active`, so adding an inactive product with sufficient stock
succeeds and creates a cart line, contradicting the claim that
add-to-cart fails for every inactive product. -/
theorem addToCart_inactive_counterexample :
    exProductI.is_active = false ∧
    (CartV2.addToCart exDb (some "user1") "p3" 1 "c9" "t1").1.success = true ∧
    (CartV2.addToCart exDb (some "user1") "p3" 1 "c9" "t1").2.cart_items ≠
      exDb.cart_items := by
  refine ⟨rfl, rfl, ?_⟩
  decide

/-- C4 (amended): for a requested quantity ≥ 1 and cart rows satisfying
the schema's quantity > 0 check, a missing product makes both variants
fail with NotFound and change nothing; a product with stock 0 or
inactive makes the standalone-client variant fail and change nothing;
a product with stock 0 makes the Clerk-client variant fail and change
nothing (that variant does not check `is_active`). -/
theorem addToCart_unavailable_spec (db : Database) (uid pid : String) (q : Int)
    (nid now : String)
    (hcart : ∀ c ∈ db.cart_items, 0 < c.quantity) (hq : 1 ≤ q) :
    (db.products.find? (fun x => x.id == pid) = none →
      CartV1.addToCart db (some uid) pid q nid now =
        ({ success := false, error := some "상품을 찾을 수 없습니다." }, db) ∧
      CartV2.addToCart db (some uid) pid q nid now =
        ({ success := false, error := some "상품을 찾을 수 없습니다." }, db)) ∧
    (∀ p, db.products.find? (fun x => x.id == pid) = some p →
      p.stock_quantity = 0 ∨ p.is_active = false →
      (CartV1.addToCart db (some uid) pid q nid now).1.success = false ∧
      (CartV1.addToCart db (some uid) pid q nid now).2 = db) ∧
    (∀ p, db.products.find? (fun x => x.id == pid) = some p →
      p.stock_quantity = 0 →
      (CartV2.addToCart db (some uid) pid q nid now).1.success = false ∧
      (CartV2.addToCart db (some uid) pid q nid now).2 = db) := by
  have hq1 : ¬(q < 1) := not_lt.mpr hq
  refine ⟨?_, ?_, ?_⟩
  · intro hfind
    constructor
    · unfold CartV1.addToCart
      simp [hq1, hfind]
    · unfold CartV2.addToCart
      simp [hfind]
  · intro p hfind hbad
    unfold CartV1.addToCart
    simp only [hfind, hq1, if_false]
    by_cases hact : p.is_active
    · have hstock0 : p.stock_quantity = 0 := by
        rcases hbad with h | h
        · exact h
        · exact absurd hact (by simp [h])
      cases hex : db.cart_items.find? (fun c => c.clerk_id == uid && c.product_id == pid) with
      | none =>
        have hgt : q > p.stock_quantity := by rw [hstock0]; omega
        simp [hex, hgt, hact]
      | some e =>
        have he : 0 < e.quantity := hcart e (List.mem_of_find?_eq_some hex)
        have hgt : e.quantity + q > p.stock_quantity := by rw [hstock0]; omega
        simp [hex, hgt, hact]
    · simp [hact]
  · intro p hfind hstock0
    unfold CartV2.addToCart
    have hlt : p.stock_quantity < q := by rw [hstock0]; omega
    simp [hfind, hlt]

theorem addToCart_unavailable_spec_witness :
    (∀ c ∈ exDb.cart_items, 0 < c.quantity) ∧
    (CartV1.addToCart exDb (some "user1") "p2" 1 "c9" "t1").1.success = false ∧
    (CartV1.addToCart exDb (some "user1") "p2" 1 "c9" "t1").2 = exDb ∧
    (CartV2.addToCart exDb (some "user1") "p2" 1 "c9" "t1").1.success = false ∧
    (CartV2.addToCart exDb (some "user1") "p2" 1 "c9" "t1").2 = exDb ∧
    (CartV1.addToCart exDb (some "user1") "p3" 1 "c9" "t1").1.success = false :=
  have h := addToCart_unavailable_spec exDb "user1" "p2" 1 "c9" "t1" (by decide) (by decide)
  have h3 := addToCart_unavailable_spec exDb "user1" "p3" 1 "c9" "t1" (by decide) (by decide)
  have h2 := h.2.1 exProductZ (by decide) (Or.inl (by decide))
  have h2b := h.2.2 exProductZ (by decide) (by decide)
  have h3b := h3.2.1 exProductI (by decide) (Or.inr (by decide))
  ⟨by decide, h2.1, h2.2, h2b.1, h2b.2, h3b.1⟩

/-! Frame lemmas for foreign cart lines. -/

theorem filter_filter_of_imp (p r : CartItem → Bool) (l : List CartItem)
    (h : ∀ c ∈ l, p c = true → r c = true) :
    (l.filter r).filter p = l.filter p := by
  induction l with
  | nil => rfl
  | cons c t ih =>
    have ht := ih (fun x hx => h x (List.mem_cons_of_mem _ hx))
    by_cases hp : p c = true
    · have hr := h c (List.mem_cons_self _ _) hp
      simp [List.filter_cons, hp, hr, ht]
    · by_cases hr : r c = true <;> simp [List.filter_cons, hp, hr, ht]

theorem filter_map_of_fix (p : CartItem → Bool) (g : CartItem → CartItem) (l : List CartItem)
    (hfix : ∀ c ∈ l, p c = true → g c = c) (hp : ∀ c, p (g c) = p c) :
    (l.map g).filter p = l.filter p := by
  induction l with
  | nil => rfl
  | cons c t ih =>
    have ht := ih (fun x hx => hfix x (List.mem_cons_of_mem _ hx))
    by_cases hc : p c = true
    · simp [List.filter_cons, hp c, hc, hfix c (List.mem_cons_self _ _) hc, ht]
    · simp [List.filter_cons, hp c, hc, ht]

theorem foreignLines_removeFromCartV1 (db : Database) (uid cid : String)
    (hids : (db.cart_items.map (fun c => c.id)).Nodup) :
    foreignLines (CartV1.removeFromCart db (some uid) cid).2 uid = foreignLines db uid := by
  unfold CartV1.removeFromCart
  cases hfind : db.cart_items.find? (fun c => c.id == cid) with
  | none => rfl
  | some item =>
    by_cases hown : item.clerk_id != uid
    · simp [hown]
    · have hcu : item.clerk_id = uid := by simpa using hown
      have hid : item.id = cid := by simpa using List.find?_some hfind
      have hmem := List.mem_of_find?_eq_some hfind
      simp only [hown, if_false, Bool.false_eq_true]
      unfold foreignLines
      refine filter_filter_of_imp _ _ _ ?_
      intro c hc hpc
      have hne : c ≠ item := by
        intro he
        rw [he] at hpc
        simp [hcu] at hpc
      have : c.id ≠ cid := by
        intro hce
        exact hne (List.inj_on_of_nodup_map hids hc hmem (by rw [hce, hid]))
      simp [this]

theorem foreignLines_updateCartQuantityV1 (db : Database) (uid cid : String) (q : Int)
    (now : String) (hids : (db.cart_items.map (fun c => c.id)).Nodup) :
    foreignLines (CartV1.updateCartQuantity db (some uid) cid q now).2 uid =
      foreignLines db uid := by
  unfold CartV1.updateCartQuantity
  by_cases hq : q ≤ 0
  · simpa [hq] using foreignLines_removeFromCartV1 db uid cid hids
  · simp only [hq, if_false]
    cases hfind : db.cart_items.find? (fun c => c.id == cid) with
    | none => rfl
    | some item =>
      by_cases hown : item.clerk_id != uid
      · simp [hown]
      · have hcu : item.clerk_id = uid := by simpa using hown
        have hid : item.id = cid := by simpa using List.find?_some hfind
        have hmem := List.mem_of_find?_eq_some hfind
        simp only [hown, if_false, Bool.false_eq_true]
        cases hp : db.products.find? (fun p => p.id == item.product_id) with
        | none => rfl
        | some product =>
          by_cases hact : product.is_active
          · by_cases hst : q > product.stock_quantity
            · simp [hact, hst]
            · simp only [hact, hst, Bool.not_true, if_false, Bool.false_eq_true]
              unfold foreignLines
              refine filter_map_of_fix _ _ _ ?_ ?_
              · intro c hc hpc
                have hne : c ≠ item := by
                  intro he
                  rw [he] at hpc
                  simp [hcu] at hpc
                have : c.id ≠ cid := by
                  intro hce
                  exact hne (List.inj_on_of_nodup_map hids hc hmem (by rw [hce, hid]))
                simp [this]
              · intro c
                by_cases hce : c.id == cid <;> simp [hce]
          · simp [hact]

theorem foreignLines_removeFromCartV2 (db : Database) (uid cid : String) :
    foreignLines (CartV2.removeFromCart db (some uid) cid).2 uid = foreignLines db uid := by
  unfold CartV2.removeFromCart foreignLines
  refine filter_filter_of_imp _ _ _ ?_
  intro c hc hpc
  have : ¬(c.clerk_id == uid) := by simpa using hpc
  simp [this]

theorem foreignLines_updateCartQuantityV2 (db : Database) (uid cid : String) (q : Int)
    (now : String) :
    foreignLines (CartV2.updateCartQuantity db (some uid) cid q now).2 uid =
      foreignLines db uid := by
  unfold CartV2.updateCartQuantity
  by_cases hq : q ≤ 0
  · simpa [hq] using foreignLines_removeFromCartV2 db uid cid
  · simp only [hq, if_false]
    cases hfind : db.cart_items.find? (fun c => c.id == cid && c.clerk_id == uid) with
    | none => rfl
    | some item =>
      dsimp only
      cases hp : db.products.find? (fun p => p.id == item.product_id) with
      | none => rfl
      | some product =>
        dsimp only
        by_cases hst : product.stock_quantity < q
        · simp [hst]
        · simp only [hst, if_false, Bool.false_eq_true]
          unfold foreignLines
          refine filter_map_of_fix _ _ _ ?_ ?_
          · intro c hc hpc
            have hcc : (c.clerk_id == uid) = false := by
              cases h : c.clerk_id == uid
              · rfl
              · rw [h] at hpc
                simp at hpc
            simp [hcc]
          · intro c
            by_cases hce : (c.id == cid && c.clerk_id == uid) = true <;> simp [hce]

/-- C10: cart lines owned by a user other than the caller are left
unchanged by `removeFromCart` and `updateCartQuantity` in both handler
variants: the sublist of foreign cart lines is preserved exactly
(cart line ids are unique, per the table's primary key). -/
theorem foreign_cart_lines_untouched (db : Database) (uid cid : String) (q : Int)
    (now : String) (hids : (db.cart_items.map (fun c => c.id)).Nodup) :
    foreignLines (CartV1.removeFromCart db (some uid) cid).2 uid = foreignLines db uid ∧
    foreignLines (CartV1.updateCartQuantity db (some uid) cid q now).2 uid =
      foreignLines db uid ∧
    foreignLines (CartV2.removeFromCart db (some uid) cid).2 uid = foreignLines db uid ∧
    foreignLines (CartV2.updateCartQuantity db (some uid) cid q now).2 uid =
      foreignLines db uid :=
  ⟨foreignLines_removeFromCartV1 db uid cid hids,
   foreignLines_updateCartQuantityV1 db uid cid q now hids,
   foreignLines_removeFromCartV2 db uid cid,
   foreignLines_updateCartQuantityV2 db uid cid q now⟩

theorem foreign_cart_lines_untouched_witness :
    (exDb.cart_items.map (fun c => c.id)).Nodup ∧
    foreignLines (CartV1.removeFromCart exDb (some "user1") "c3").2 "user1" =
      foreignLines exDb "user1" ∧
    foreignLines (CartV2.updateCartQuantity exDb (some "user1") "c3" 4 "t1").2 "user1" =
      foreignLines exDb "user1" :=
  have h := foreign_cart_lines_untouched exDb "user1" "c3" 4 "t1" (by decide)
  ⟨by decide, h.1, h.2.2.2⟩
